import Mathlib

/-!
Shallow embedding of `src/main.py` (WebCanvasBrowser): the canvas item
lifecycle and interaction model — `WebPageItem`, `SizeGrip`, `Canvas`,
`RefreshSettingsDialog` and the relevant `BrowserCanvasApp` handlers.

Modelling conventions:
  * A `QTimer` is `Option Int`: `none` when stopped, `some ms` when running
    with period `ms` milliseconds (`QTimer.start(ms)` sets it, `stop()`
    clears it; `start` on a running timer restarts it — a single timer
    object never runs twice).
  * The embedded `QWebEngineView` is abstracted to a reload counter:
    `refresh_page` (which calls `web_view.reload()`) increments it.
  * Integers from Python are `Int`.
  * `QGraphicsScene` is the canvas's item list.
-/

namespace WebCanvas

/-- A point, as `QPoint` (integer coordinates). -/
structure QPoint where
  x : Int
  y : Int
deriving DecidableEq

/-- `QRect`, following Qt's representation: stored as the two corners
`(x1, y1)` (top-left) and `(x2, y2)`; for a rect built from `(x, y, w, h)`,
`x2 = x + w - 1` and `y2 = y + h - 1`. -/
structure QRect where
  x1 : Int
  y1 : Int
  x2 : Int
  y2 : Int
deriving DecidableEq

/-- `QRect(x, y, w, h)` constructor. -/
def QRect.mkXYWH (x y w h : Int) : QRect :=
  ⟨x, y, x + w - 1, y + h - 1⟩

def QRect.topLeft (r : QRect) : QPoint := ⟨r.x1, r.y1⟩

def QRect.topRight (r : QRect) : QPoint := ⟨r.x2, r.y1⟩

def QRect.bottomLeft (r : QRect) : QPoint := ⟨r.x1, r.y2⟩

def QRect.bottomRight (r : QRect) : QPoint := ⟨r.x2, r.y2⟩

/-- `QRect.setTopLeft(p)`: moves the top-left corner, bottom-right fixed. -/
def QRect.setTopLeft (r : QRect) (p : QPoint) : QRect :=
  { r with x1 := p.x, y1 := p.y }

/-- `QRect.setTopRight(p)`: moves the top-right corner, bottom-left fixed. -/
def QRect.setTopRight (r : QRect) (p : QPoint) : QRect :=
  { r with x2 := p.x, y1 := p.y }

/-- `QRect.setBottomLeft(p)`: moves the bottom-left corner, top-right fixed. -/
def QRect.setBottomLeft (r : QRect) (p : QPoint) : QRect :=
  { r with x1 := p.x, y2 := p.y }

/-- `QRect.setBottomRight(p)`: moves the bottom-right corner, top-left fixed. -/
def QRect.setBottomRight (r : QRect) (p : QPoint) : QRect :=
  { r with x2 := p.x, y2 := p.y }

/-- Python `str.startswith(p)` for a single candidate. -/
def startswith (s p : String) : Bool :=
  p.data.isPrefixOf s.data

/-- State of a `WebPageItem` (src/main.py lines 12-56).
`refresh_timer` is the `QTimer`: `none` = stopped, `some ms` = running with
period `ms` ms. `reload_count` counts `web_view.reload()` calls, i.e.
invocations of `refresh_page`. `pos` is the scene position set by `setPos`. -/
structure WebPageItem where
  url : String
  refresh_interval : Int
  refresh_timer : Option Int
  reload_count : Nat
  pos : QPoint
deriving DecidableEq

/-- `WebPageItem.__init__(url)` (lines 13-44): stores the url, sets
`refresh_interval = 0` (no auto-refresh), creates the timer without
starting it, and connects its timeout to `refresh_page`. -/
def WebPageItem.init (url : String) : WebPageItem :=
  { url := url
    refresh_interval := 0
    refresh_timer := none
    reload_count := 0
    pos := ⟨0, 0⟩ }

/-- `WebPageItem.refresh_page` (lines 46-47): `self.web_view.reload()`. -/
def refresh_page (item : WebPageItem) : WebPageItem :=
  { item with reload_count := item.reload_count + 1 }

/-- `WebPageItem.set_refresh_interval(seconds)` (lines 49-53):
stores `seconds`, stops the timer, then starts it with period
`seconds * 1000` ms when `seconds > 0`. -/
def set_refresh_interval (item : WebPageItem) (seconds : Int) : WebPageItem :=
  let item := { item with refresh_interval := seconds }
  let item := { item with refresh_timer := none }
  if seconds > 0 then
    { item with refresh_timer := some (seconds * 1000) }
  else
    item

/-- One firing of the timer's `timeout` signal: the signal only fires while
the timer is running, and it is connected to `refresh_page` (line 18). -/
def timer_fire (item : WebPageItem) : WebPageItem :=
  match item.refresh_timer with
  | some _ => refresh_page item
  | none => item

/-- The four `Qt` corner constants used by `SizeGrip`. -/
inductive Corner where
  | bottomRightCorner
  | bottomLeftCorner
  | topRightCorner
  | topLeftCorner
deriving DecidableEq

/-- `SizeGrip.mouseMoveEvent` (lines 65-80): under a primary-button drag,
reads the container geometry, sets the grip's own corner to the pointer
position, and applies the geometry; otherwise leaves it unchanged.
`leftButton` models `event.buttons() == Qt.LeftButton`; `pos` models
`event.globalPos()`. -/
def SizeGrip.mouseMoveEvent (corner : Corner) (leftButton : Bool)
    (geometry : QRect) (pos : QPoint) : QRect :=
  if leftButton then
    match corner with
    | .bottomRightCorner => geometry.setBottomRight pos
    | .bottomLeftCorner => geometry.setBottomLeft pos
    | .topRightCorner => geometry.setTopRight pos
    | .topLeftCorner => geometry.setTopLeft pos
  else
    geometry

/-- `Canvas` (lines 83-98): its `QGraphicsScene`, held as the item list. -/
structure Canvas where
  items : List WebPageItem
deriving DecidableEq

/-- `Canvas.add_web_page(url)` (lines 92-98): creates a `WebPageItem` for
`url` as given (no normalization here), adds it to the scene, sets a random
position (the two `random.randint` draws are passed in as `rx`, `ry`), and
returns the page. -/
def Canvas.add_web_page (c : Canvas) (url : String) (rx ry : Int) :
    Canvas × WebPageItem :=
  let page := { WebPageItem.init url with pos := ⟨rx, ry⟩ }
  ({ items := c.items ++ [page] }, page)

/-- `QGraphicsScene.removeItem(item)`: removes the item from the scene's
item list only; the item object itself is not destroyed and its fields —
in particular its running `refresh_timer` — are untouched. -/
def Canvas.removeItem (c : Canvas) (item : WebPageItem) : Canvas :=
  { items := c.items.erase item }

/-- The context menu's "Close Page" command (lines 186-187): connected to
`lambda: self.canvas.scene.removeItem(item)`. Returns the scene after
removal together with the item, which survives with unchanged state (the
lambda closure keeps it alive; nothing stops its timer). -/
def close_page_command (c : Canvas) (item : WebPageItem) :
    Canvas × WebPageItem :=
  (c.removeItem item, item)

/-- `QSpinBox.setValue` semantics: a value outside the configured range is
clamped to the nearest bound (`qBound(lo, v, hi)`). -/
def qspinbox_bound (lo hi v : Int) : Int :=
  max lo (min hi v)

/-- `RefreshSettingsDialog` (lines 101-122): holds one `QSpinBox`. -/
structure RefreshSettingsDialog where
  spin_box : Int
deriving DecidableEq

/-- `RefreshSettingsDialog.__init__(current_interval)` (lines 102-119):
the spin box gets range `[0, 3600]` and value `current_interval`
(clamped into the range by `setValue`). -/
def RefreshSettingsDialog.init (current_interval : Int) :
    RefreshSettingsDialog :=
  { spin_box := qspinbox_bound 0 3600 current_interval }

/-- `RefreshSettingsDialog.get_interval` (lines 121-122). -/
def get_interval (d : RefreshSettingsDialog) : Int :=
  d.spin_box

/-- A user edit of the spin box while the dialog is open: `none` = no edit,
`some v` = the user enters `v`, which the spin box clamps to `[0, 3600]`. -/
def dialog_edit (d : RefreshSettingsDialog) (edit : Option Int) :
    RefreshSettingsDialog :=
  match edit with
  | none => d
  | some v => { d with spin_box := qspinbox_bound 0 3600 v }

/-- Outcome of `dialog.exec_()`. -/
inductive DialogResult where
  | accepted
  | rejected
deriving DecidableEq

/-- `BrowserCanvasApp.show_refresh_settings` (lines 191-196): when a page
is current, opens a `RefreshSettingsDialog` seeded with the page's
`refresh_interval`; the user may edit the spin box; only when the dialog is
accepted is `set_refresh_interval(dialog.get_interval())` applied. -/
def show_refresh_settings (page : Option WebPageItem) (edit : Option Int)
    (outcome : DialogResult) : Option WebPageItem :=
  match page with
  | none => none
  | some item =>
    let dialog := dialog_edit (RefreshSettingsDialog.init item.refresh_interval) edit
    match outcome with
    | .accepted => some (set_refresh_interval item (get_interval dialog))
    | .rejected => some item

/-- `BrowserCanvasApp` state relevant to the core: the canvas and the URL
input field's text. -/
structure BrowserCanvasApp where
  canvas : Canvas
  url_input : String
deriving DecidableEq

/-- `BrowserCanvasApp.add_new_page` (lines 160-166): reads the input text;
when it starts with neither "http://" nor "https://", the "https://"
scheme is put in front; then `canvas.add_web_page(url)` runs and the input
is cleared. -/
def BrowserCanvasApp.add_new_page (app : BrowserCanvasApp) (rx ry : Int) :
    BrowserCanvasApp :=
  let url := app.url_input
  let url :=
    if !(startswith url "http://" || startswith url "https://") then
      "https://" ++ url
    else
      url
  { app with
    canvas := (app.canvas.add_web_page url rx ry).1
    url_input := "" }

/-- The operations the application can perform on one page item
(creation aside): the "Refresh Now" command, a timer fire, the
"Auto-Refresh Settings..." dialog flow with any user edit and outcome, and
the "Close Page" command. -/
inductive PageOp where
  | refreshNow
  | timerFire
  | showSettings (edit : Option Int) (outcome : DialogResult)
  | closePage

/-- How each operation transforms the item's state. `closePage` only
removes the item from the scene (`Canvas.removeItem`), leaving the item's
own state untouched. -/
def page_step (item : WebPageItem) : PageOp → WebPageItem
  | .refreshNow => refresh_page item
  | .timerFire => timer_fire item
  | .showSettings edit outcome =>
    (show_refresh_settings (some item) edit outcome).getD item
  | .closePage => (close_page_command ⟨[item]⟩ item).2

/-- The spec's PageItem state invariant: `refresh_interval ∈ [0, 3600]`,
and the refresh timer is running iff `refresh_interval > 0`. -/
def item_invariant (item : WebPageItem) : Prop :=
  0 ≤ item.refresh_interval ∧ item.refresh_interval ≤ 3600 ∧
    (item.refresh_timer.isSome = true ↔ 0 < item.refresh_interval)

/-! Helper lemmas. -/

/-- A value forced through a `[0, 3600]` spin-box bound lies in `[0, 3600]`. -/
theorem qspinbox_bound_range (v : Int) :
    0 ≤ qspinbox_bound 0 3600 v ∧ qspinbox_bound 0 3600 v ≤ 3600 := by
  unfold qspinbox_bound
  exact ⟨le_max_left 0 _, max_le (by norm_num) (min_le_left _ _)⟩

/-- Whatever the seed and whatever the user typed, the dialog's final spin
box value is in `[0, 3600]`: both the seed and any edit pass through the
spin box's range bound. -/
theorem dialog_value_range (seed : Int) (edit : Option Int) :
    0 ≤ get_interval (dialog_edit (RefreshSettingsDialog.init seed) edit)
    ∧ get_interval (dialog_edit (RefreshSettingsDialog.init seed) edit) ≤ 3600 := by
  cases edit with
  | none => exact qspinbox_bound_range seed
  | some v => exact qspinbox_bound_range v

/-- `set_refresh_interval` establishes the state invariant whenever its
argument is in `[0, 3600]`. -/
theorem set_refresh_interval_invariant (item : WebPageItem) (s : Int)
    (h0 : 0 ≤ s) (h1 : s ≤ 3600) :
    item_invariant (set_refresh_interval item s) := by
  unfold item_invariant set_refresh_interval
  split <;> simp_all

/-- Every application operation preserves the state invariant. -/
theorem page_step_invariant (item : WebPageItem) (op : PageOp)
    (h : item_invariant item) : item_invariant (page_step item op) := by
  cases op with
  | refreshNow => exact h
  | timerFire =>
    show item_invariant (timer_fire item)
    unfold timer_fire
    cases hT : item.refresh_timer with
    | none => exact h
    | some ms => exact h
  | closePage => exact h
  | showSettings edit outcome =>
    cases outcome with
    | rejected => exact h
    | accepted =>
      show item_invariant (set_refresh_interval item _)
      exact set_refresh_interval_invariant _ _
        (dialog_value_range item.refresh_interval edit).1
        (dialog_value_range item.refresh_interval edit).2

/-- The state invariant is preserved along any operation sequence. -/
theorem foldl_page_step_invariant (ops : List PageOp) (item : WebPageItem)
    (h : item_invariant item) : item_invariant (ops.foldl page_step item) := by
  induction ops generalizing item with
  | nil => exact h
  | cons op rest ih => exact ih _ (page_step_invariant item op h)

/-- A freshly constructed item satisfies the state invariant. -/
theorem init_invariant (url : String) :
    item_invariant (WebPageItem.init url) := by
  unfold item_invariant WebPageItem.init
  simp

/-! Claims. -/

/-- C1: the claim says removal via the "Close Page" command synchronously
cancels the pending refresh timer, so `refresh_page` is never invoked on
the item again. The code does not do this: `Close Page` only calls
`scene.removeItem(item)`, which removes the item from the scene but leaves
its `QTimer` running (nothing ever calls `refresh_timer.stop()` on
removal, and the connected lambda keeps the item alive). Concretely: an
item with refresh interval 5 is removed from the scene, yet its timer is
still running with period 5000 ms and the next timer fire still invokes
`refresh_page`, incrementing the reload count. -/
theorem C1_removed_item_timer_still_fires :
    (close_page_command ⟨[set_refresh_interval (WebPageItem.init "https://example.com") 5]⟩
        (set_refresh_interval (WebPageItem.init "https://example.com") 5)).1.items = []
    ∧ (close_page_command ⟨[set_refresh_interval (WebPageItem.init "https://example.com") 5]⟩
        (set_refresh_interval (WebPageItem.init "https://example.com") 5)).2.refresh_timer
        = some 5000
    ∧ (timer_fire (close_page_command
          ⟨[set_refresh_interval (WebPageItem.init "https://example.com") 5]⟩
          (set_refresh_interval (WebPageItem.init "https://example.com") 5)).2).reload_count
        = (close_page_command
          ⟨[set_refresh_interval (WebPageItem.init "https://example.com") 5]⟩
          (set_refresh_interval (WebPageItem.init "https://example.com") 5)).2.reload_count + 1 := by
  decide

/-- C2: for every PageItem and every sequence of application operations
(creation, the settings-dialog flow that applies `set_refresh_interval`,
`refresh_page` / timer fires, and removal), the state invariant holds:
`refresh_interval ∈ [0, 3600]` and the refresh timer is running iff
`refresh_interval > 0`. -/
theorem C2_refresh_invariant_all_sequences (url : String) (ops : List PageOp) :
    item_invariant (ops.foldl page_step (WebPageItem.init url)) :=
  foldl_page_step_invariant ops _ (init_invariant url)

/-- C3: for every non-negative integer `s`, `set_refresh_interval s`
stores `s`, stops any existing timer and — exactly when `s > 0` — starts a
repeating timer with period `s` seconds (`s * 1000` ms) whose fires invoke
`refresh_page`; when `s = 0` no timer is left running. -/
theorem C3_set_refresh_interval_contract (item : WebPageItem) (s : Nat) :
    (set_refresh_interval item s).refresh_interval = s
    ∧ (set_refresh_interval item s).refresh_timer
        = (if (s : Int) > 0 then some ((s : Int) * 1000) else none)
    ∧ timer_fire (set_refresh_interval item s)
        = (if (s : Int) > 0 then refresh_page (set_refresh_interval item s)
           else set_refresh_interval item s) := by
  unfold set_refresh_interval timer_fire
  split <;> simp_all

/-- C4 counterexample: `Canvas.add_web_page "example.com"` stores the URL
exactly as given — `"example.com"`, not `"https://example.com"` — because
`add_web_page` performs no scheme defaulting. -/
theorem C4_counterexample_no_scheme_default :
    ((Canvas.mk []).add_web_page "example.com" 0 0).2.url = "example.com"
    ∧ ((Canvas.mk []).add_web_page "example.com" 0 0).2.url
        ≠ "https://example.com" := by
  decide

/-- C4 amended: `Canvas.add_web_page "example.com"` produces a PageItem
whose stored URL is `"example.com"` (unchanged) with initial
`refresh_interval = 0`; the https-defaulting happens in the caller,
`BrowserCanvasApp.add_new_page`, so submitting `"example.com"` through the
URL input produces an item whose URL is `"https://example.com"`. -/
theorem C4_normalization_in_add_new_page (c : Canvas)
    (items : List WebPageItem) (rx ry : Int) :
    (c.add_web_page "example.com" rx ry).2.url = "example.com"
    ∧ (c.add_web_page "example.com" rx ry).2.refresh_interval = 0
    ∧ (BrowserCanvasApp.add_new_page ⟨⟨items⟩, "example.com"⟩ rx ry).canvas.items
        = items ++ [{ WebPageItem.init "https://example.com" with pos := ⟨rx, ry⟩ }] := by
  refine ⟨rfl, rfl, ?_⟩
  have hs : (startswith "example.com" "http://"
      || startswith "example.com" "https://") = false := by decide
  have happ : ("https://" ++ "example.com" : String) = "https://example.com" := rfl
  unfold BrowserCanvasApp.add_new_page Canvas.add_web_page
  simp [hs, happ]

/-- C5: a primary-button drag-move on each corner resize handle, from
geometry `(x, y, w, h)` to pointer position `(px, py)`, moves exactly that
handle's corner to `(px, py)` and leaves the opposite corner fixed: the
bottom-right handle keeps the top-left corner `(x, y)`, and symmetrically
for the other three handles. -/
theorem C5_resize_corner_laws (x y w h px py : Int) :
    (SizeGrip.mouseMoveEvent .bottomRightCorner true
        (QRect.mkXYWH x y w h) ⟨px, py⟩).topLeft = QPoint.mk x y
    ∧ (SizeGrip.mouseMoveEvent .bottomRightCorner true
        (QRect.mkXYWH x y w h) ⟨px, py⟩).bottomRight = QPoint.mk px py
    ∧ (SizeGrip.mouseMoveEvent .topLeftCorner true
        (QRect.mkXYWH x y w h) ⟨px, py⟩).bottomRight
        = (QRect.mkXYWH x y w h).bottomRight
    ∧ (SizeGrip.mouseMoveEvent .topLeftCorner true
        (QRect.mkXYWH x y w h) ⟨px, py⟩).topLeft = QPoint.mk px py
    ∧ (SizeGrip.mouseMoveEvent .topRightCorner true
        (QRect.mkXYWH x y w h) ⟨px, py⟩).bottomLeft
        = (QRect.mkXYWH x y w h).bottomLeft
    ∧ (SizeGrip.mouseMoveEvent .topRightCorner true
        (QRect.mkXYWH x y w h) ⟨px, py⟩).topRight = QPoint.mk px py
    ∧ (SizeGrip.mouseMoveEvent .bottomLeftCorner true
        (QRect.mkXYWH x y w h) ⟨px, py⟩).topRight
        = (QRect.mkXYWH x y w h).topRight
    ∧ (SizeGrip.mouseMoveEvent .bottomLeftCorner true
        (QRect.mkXYWH x y w h) ⟨px, py⟩).bottomLeft = QPoint.mk px py :=
  ⟨rfl, rfl, rfl, rfl, rfl, rfl, rfl, rfl⟩

/-- C6: closing the refresh-settings dialog with the reject outcome
applies no mutation: whatever the user typed into the spin box,
`show_refresh_settings` returns the page exactly as it was —
`set_refresh_interval` is not called, so `refresh_interval` and the timer
state are untouched. -/
theorem C6_dialog_cancel_no_mutation (item : WebPageItem) (edit : Option Int) :
    show_refresh_settings (some item) edit .rejected = some item :=
  rfl

/-- C7: a `RefreshSettingsDialog` seeded with any value in `[0, 3600]` and
confirmed without edits returns `get_interval()` equal to the seed. -/
theorem C7_dialog_round_trip (s : Int) (h0 : 0 ≤ s) (h1 : s ≤ 3600) :
    get_interval (RefreshSettingsDialog.init s) = s := by
  simp only [get_interval, RefreshSettingsDialog.init, qspinbox_bound]
  omega

/-- C7 witness: seeding with 42 and confirming immediately returns 42. -/
theorem C7_dialog_round_trip_witness :
    0 ≤ (42 : Int) ∧ (42 : Int) ≤ 3600
    ∧ get_interval (RefreshSettingsDialog.init 42) = 42 :=
  ⟨by decide, by decide, C7_dialog_round_trip 42 (by decide) (by decide)⟩

/-- C8: `set_refresh_interval` is idempotent — calling it twice in a row
with the same `s` leaves the item in exactly the state one call produces;
since one `QTimer` holds at most one running schedule, there is one active
timer with period `s` (or none for `s = 0`), never two. -/
theorem C8_set_refresh_interval_idempotent (item : WebPageItem) (s : Int) :
    set_refresh_interval (set_refresh_interval item s) s
      = set_refresh_interval item s := by
  unfold set_refresh_interval
  split <;> rfl

/-- C9: for every `s ≤ 0`, including negative values, `set_refresh_interval s`
raises no error: it stores `s` as `refresh_interval`, stops any running
timer and starts none. -/
theorem C9_nonpositive_interval_no_timer (item : WebPageItem) (s : Int)
    (h : s ≤ 0) :
    (set_refresh_interval item s).refresh_interval = s
    ∧ (set_refresh_interval item s).refresh_timer = none := by
  unfold set_refresh_interval
  split
  · omega
  · exact ⟨rfl, rfl⟩

/-- C9 witness: `set_refresh_interval (-5)` stores `-5` and leaves the
timer stopped. -/
theorem C9_nonpositive_interval_no_timer_witness :
    (-5 : Int) ≤ 0
    ∧ ((set_refresh_interval (WebPageItem.init "https://example.com") (-5)).refresh_interval = -5
      ∧ (set_refresh_interval (WebPageItem.init "https://example.com") (-5)).refresh_timer = none) :=
  ⟨by decide,
    C9_nonpositive_interval_no_timer (WebPageItem.init "https://example.com") (-5) (by decide)⟩

/-- C10: for input text starting with neither "http://" nor "https://"
(the empty field included), `add_new_page` does not reject: it puts
"https://" in front of the text (the empty string becomes exactly
"https://"), creates a page for the result, and clears the input field. -/
theorem C10_empty_url_not_rejected (items : List WebPageItem) (text : String)
    (rx ry : Int)
    (h : (startswith text "http://" || startswith text "https://") = false) :
    (BrowserCanvasApp.add_new_page ⟨⟨items⟩, text⟩ rx ry).canvas.items
      = items ++ [{ WebPageItem.init ("https://" ++ text) with pos := ⟨rx, ry⟩ }]
    ∧ (BrowserCanvasApp.add_new_page ⟨⟨items⟩, text⟩ rx ry).url_input = "" := by
  unfold BrowserCanvasApp.add_new_page Canvas.add_web_page
  simp [h]

/-- C10 witness: submitting an empty URL field creates a page whose URL is
exactly "https://" and clears the field. -/
theorem C10_empty_url_not_rejected_witness :
    (startswith "" "http://" || startswith "" "https://") = false
    ∧ ((BrowserCanvasApp.add_new_page ⟨⟨[]⟩, ""⟩ 0 0).canvas.items
        = [] ++ [{ WebPageItem.init ("https://" ++ "") with pos := ⟨0, 0⟩ }]
      ∧ (BrowserCanvasApp.add_new_page ⟨⟨[]⟩, ""⟩ 0 0).url_input = "") :=
  ⟨by decide, C10_empty_url_not_rejected [] "" 0 0 (by decide)⟩

end WebCanvas
